import Mathlib

/-!
# The generated identifier table of Wwise_IDs.h

The header declares, inside namespace AK, five nested namespaces of
static const AkUniqueID constants.  Each declaration is embedded as a record of
the declared name and the decimal literal that initialises it; a nested
namespace is the list of its declarations in source order.
-/

/-- The identifier type of the header, an unsigned 32-bit integer, embedded as a
natural number; the reduction modulo 2^32 is explicit in Decl.value. -/
abbrev AkUniqueID := Nat

/-- One line of the header: static const AkUniqueID name = literal U; -/
structure Decl where
  name : String
  literal : Nat
deriving DecidableEq, Repr

/-- The value the constant holds: the literal converted to the 32-bit unsigned
identifier type. -/
def Decl.value (d : Decl) : AkUniqueID := d.literal % 2 ^ 32

namespace AK

/-- Declarations of namespace AK::EVENTS, lines 16 to 25 of the header. -/
def EVENTS : List Decl :=
  [ ⟨"PLAY_CROWD_HYPE_ATMOS", 2894693859⟩,
    ⟨"PLAY_CROWDWAVETRIGGER", 3690114382⟩,
    ⟨"PLAY_INTRO", 3103472528⟩,
    ⟨"PLAY_INTRO_STRIPPED", 411890270⟩,
    ⟨"PLAY_LOOP", 4266239556⟩,
    ⟨"PLAY_PLAYER_IMPACT", 3054673414⟩,
    ⟨"PLAY_SHORTENEDMETALSCREAM", 376268128⟩,
    ⟨"PLAY_WRONG_NOTES", 3243576603⟩,
    ⟨"STOP_CROWD_HYPE_ATMOS", 811677265⟩,
    ⟨"STOP_MUSIC", 2837384057⟩ ]

/-- Declarations of namespace AK::GAME_PARAMETERS, line 30. -/
def GAME_PARAMETERS : List Decl :=
  [ ⟨"HYPE_LEVEL", 3835653926⟩ ]

/-- Declarations of namespace AK::TRIGGERS, lines 35 and 36. -/
def TRIGGERS : List Decl :=
  [ ⟨"MOSH_ON", 1415031416⟩,
    ⟨"WAVE_ON", 1252924290⟩ ]

/-- Declarations of namespace AK::BANKS, lines 41 to 43. -/
def BANKS : List Decl :=
  [ ⟨"INIT", 1355168291⟩,
    ⟨"MAIN", 3161908922⟩,
    ⟨"MUSIC", 3991942870⟩ ]

/-- Declarations of namespace AK::BUSSES, lines 48 to 51. -/
def BUSSES : List Decl :=
  [ ⟨"MASTER_AUDIO_BUS", 3803692087⟩,
    ⟨"MASTER_SECONDARY_BUS", 805203703⟩,
    ⟨"MUSIC", 3991942870⟩,
    ⟨"SFX", 393239870⟩ ]

/-- The nested namespaces of namespace AK, by name, in source order. -/
def namespaces : List (String × List Decl) :=
  [ ("EVENTS", EVENTS),
    ("GAME_PARAMETERS", GAME_PARAMETERS),
    ("TRIGGERS", TRIGGERS),
    ("BANKS", BANKS),
    ("BUSSES", BUSSES) ]

end AK

/-- An entry of the table: a declaration together with the name of the nested
namespace that holds it. -/
structure Entry where
  category : String
  decl : Decl
deriving DecidableEq, Repr

/-- Symbolic name of an entry. -/
def Entry.name (e : Entry) : String := e.decl.name

/-- Value of an entry. -/
def Entry.value (e : Entry) : AkUniqueID := e.decl.value

/-- The whole table: every declaration of every nested namespace, in source order. -/
def AK.entries : List Entry :=
  AK.namespaces.flatMap fun p => p.2.map fun d => ⟨p.1, d⟩

/-- The categories of the specification, under the names its scenarios use. -/
inductive Category where
  | Events
  | GameParameters
  | Triggers
  | Banks
  | Busses
deriving DecidableEq, Repr

/-- Every category of the specification, in the order in which it lists them. -/
def Category.all : List Category :=
  [.Events, .GameParameters, .Triggers, .Banks, .Busses]

/-- The nested namespace of the header that holds the constants of a category. -/
def Category.namespaceName : Category → String
  | .Events => "EVENTS"
  | .GameParameters => "GAME_PARAMETERS"
  | .Triggers => "TRIGGERS"
  | .Banks => "BANKS"
  | .Busses => "BUSSES"

/-- The declarations found by resolving the namespace of a category inside AK. -/
def Category.decls (c : Category) : List Decl :=
  (AK.namespaces.lookup c.namespaceName).getD []

/-- The names declared in the namespace of a category. -/
def Category.declared (c : Category) : List String :=
  c.decls.map Decl.name

/-- The single error of the specification: the name is not in the table. -/
inductive LookupError where
  | notFound
deriving DecidableEq, Repr

deriving instance DecidableEq for Except

/-- Resolution of a name against a list of declarations: the first declaration
with that name, when there is one. -/
def resolve (ds : List Decl) (n : String) : Except LookupError AkUniqueID :=
  match ds.find? fun d => d.name == n with
  | some d => .ok d.value
  | none => .error .notFound

/-- Modelled from the spec: the runtime operation lookup(category, symbolicName)
of section 4.1.  The header has no such function: it only declares the constants,
and C++ resolves the qualified name AK::C::N at compile time.  The lookup resolves
the namespace of the category inside AK and then the name inside that namespace,
and fails with the not-found error when either is absent. -/
def lookup (c : Category) (n : String) : Except LookupError AkUniqueID :=
  match AK.namespaces.lookup c.namespaceName with
  | some ds => resolve ds n
  | none => .error .notFound

/-- The ASCII lower case of a byte. -/
def lowerByte (b : Nat) : Nat :=
  if 65 ≤ b ∧ b ≤ 90 then b + 32 else b

/-- The bytes of a name; the names of the table are ASCII, so that the bytes are
the code points of the characters. -/
def nameBytes (s : String) : List Nat :=
  s.toList.map Char.toNat

/-- One round of the 32-bit FNV-1 hash: multiply by the prime modulo 2^32, then
exclusive-or with the byte. -/
def fnv1Step (h b : Nat) : Nat :=
  ((h * 16777619) % 2 ^ 32) ^^^ b

/-- The 32-bit FNV-1 hash of a list of bytes, from the offset basis 2166136261. -/
def fnv1 (bs : List Nat) : Nat :=
  bs.foldl fnv1Step 2166136261

/-- The hash of a symbolic name as the claim words it: FNV-1 of the name in
ASCII lower case. -/
def hashName (s : String) : Nat :=
  fnv1 ((nameBytes s).map lowerByte)

/-- Replaces every underscore (95) of a byte string by a space (32). -/
def underscoreToSpace (b : Nat) : Nat :=
  if b = 95 then 32 else b

/-- The hash of the name with its underscores read as spaces, as in the
object names Master Audio Bus and Master Secondary Bus. -/
def hashSpacedName (s : String) : Nat :=
  fnv1 (((nameBytes s).map underscoreToSpace).map lowerByte)

/-- The two entries whose names are declared with underscores for spaces. -/
def spacedNames : List String :=
  ["MASTER_AUDIO_BUS", "MASTER_SECONDARY_BUS"]

/-! ## Resolution of names: general facts -/

theorem resolve_nil (n : String) : resolve [] n = .error .notFound := rfl

theorem resolve_cons (d : Decl) (ds : List Decl) (n : String) :
    resolve (d :: ds) n = if d.name = n then .ok d.value else resolve ds n := by
  by_cases h : d.name = n
  · simp [resolve, List.find?, h]
  · have hb : (d.name == n) = false := by simpa using h
    simp [resolve, List.find?, hb, h]

/-- A resolution that succeeds returns the value of a declaration of the list
that bears the name. -/
theorem resolve_ok_mem (ds : List Decl) (n : String) (v : AkUniqueID)
    (h : resolve ds n = .ok v) : ∃ d ∈ ds, d.name = n ∧ d.value = v := by
  induction ds with
  | nil => simp [resolve_nil] at h
  | cons d ds ih =>
    rw [resolve_cons] at h
    by_cases hd : d.name = n
    · rw [if_pos hd] at h
      exact ⟨d, List.mem_cons_self _ _, hd, by injection h⟩
    · rw [if_neg hd] at h
      obtain ⟨e, he, hn, hv⟩ := ih h
      exact ⟨e, List.mem_cons_of_mem _ he, hn, hv⟩

/-- Resolution succeeds exactly on the names of the list. -/
theorem resolve_ok_iff_mem (ds : List Decl) (n : String) :
    (∃ v, resolve ds n = .ok v) ↔ n ∈ ds.map Decl.name := by
  induction ds with
  | nil => simp [resolve_nil]
  | cons d ds ih =>
    rw [resolve_cons]
    by_cases hd : d.name = n
    · simp [hd]
    · have hn : ¬ n = d.name := fun h => hd h.symm
      simp only [if_neg hd, List.map_cons, List.mem_cons, hn, false_or]
      exact ih

/-- Resolution fails, with the not-found error, exactly off the names of the list. -/
theorem resolve_error_iff_not_mem (ds : List Decl) (n : String) :
    resolve ds n = .error .notFound ↔ n ∉ ds.map Decl.name := by
  induction ds with
  | nil => simp [resolve_nil]
  | cons d ds ih =>
    rw [resolve_cons]
    by_cases hd : d.name = n
    · simp [hd]
    · have hn : ¬ n = d.name := fun h => hd h.symm
      simp only [if_neg hd, List.map_cons, List.mem_cons, hn, false_or]
      exact ih

/-- The lookup of a category is the resolution inside its declarations. -/
theorem lookup_eq_resolve (c : Category) (n : String) :
    lookup c n = resolve c.decls n := by
  cases c <;> rfl

/-- The declarations of each category are those of its namespace. -/
theorem decls_eq :
    Category.Events.decls = AK.EVENTS ∧
    Category.GameParameters.decls = AK.GAME_PARAMETERS ∧
    Category.Triggers.decls = AK.TRIGGERS ∧
    Category.Banks.decls = AK.BANKS ∧
    Category.Busses.decls = AK.BUSSES := by
  decide

/-- No declaration of the table holds the value 0. -/
theorem decls_value_ne_zero (c : Category) : ∀ d ∈ c.decls, d.value ≠ 0 := by
  cases c <;> decide

/-! ## The claims -/

/-- Claim C1: looking up a declared name returns the exact literal recorded for it
in the header, for every declaration of every category, and the six scenarios of
the specification hold. -/
theorem lookup_returns_literal :
    (∀ c : Category, ∀ d ∈ c.decls, lookup c d.name = .ok d.literal) ∧
    lookup .Events "PLAY_INTRO" = .ok 3103472528 ∧
    lookup .Events "STOP_MUSIC" = .ok 2837384057 ∧
    lookup .GameParameters "HYPE_LEVEL" = .ok 3835653926 ∧
    lookup .Triggers "WAVE_ON" = .ok 1252924290 ∧
    lookup .Banks "INIT" = .ok 1355168291 ∧
    lookup .Busses "MASTER_AUDIO_BUS" = .ok 3803692087 := by
  refine ⟨?_, by decide, by decide, by decide, by decide, by decide, by decide⟩
  intro c
  cases c <;> decide

theorem lookup_returns_literal_witness :
    (⟨"PLAY_LOOP", 4266239556⟩ : Decl) ∈ Category.Events.decls ∧
    lookup .Events "PLAY_LOOP" = .ok 4266239556 :=
  ⟨by decide, lookup_returns_literal.1 .Events ⟨"PLAY_LOOP", 4266239556⟩ (by decide)⟩

/-- Claim C2: inside each nested namespace of the header, two declarations with
distinct names hold distinct values; the same holds for the declarations of each
category of the specification. -/
theorem value_injective_within_category :
    (∀ ns ∈ AK.namespaces, ∀ d1 ∈ ns.2, ∀ d2 ∈ ns.2,
      d1.name ≠ d2.name → d1.value ≠ d2.value) ∧
    (∀ c : Category, ∀ d1 ∈ c.decls, ∀ d2 ∈ c.decls,
      d1.name ≠ d2.name → d1.value ≠ d2.value) := by
  refine ⟨by decide, ?_⟩
  intro c
  cases c <;> decide

theorem value_injective_within_category_witness :
    (⟨"INIT", 1355168291⟩ : Decl) ∈ Category.Banks.decls ∧
    (⟨"MAIN", 3161908922⟩ : Decl) ∈ Category.Banks.decls ∧
    (⟨"INIT", 1355168291⟩ : Decl).name ≠ (⟨"MAIN", 3161908922⟩ : Decl).name ∧
    (⟨"INIT", 1355168291⟩ : Decl).value ≠ (⟨"MAIN", 3161908922⟩ : Decl).value :=
  ⟨by decide, by decide, by decide,
    value_injective_within_category.2 .Banks ⟨"INIT", 1355168291⟩ (by decide)
      ⟨"MAIN", 3161908922⟩ (by decide) (by decide)⟩

/-- Claim C3: the lookup of a name in a category succeeds exactly when the name is
declared in the namespace of that category, and fails with the not-found error
exactly when it is not; a name declared only in another category is not found,
as for WAVE_ON in Events and PLAY_INTRO in Triggers; and not-found is the only
error a lookup returns. -/
theorem lookup_succeeds_iff_declared :
    (∀ (c : Category) (n : String), (∃ v, lookup c n = .ok v) ↔ n ∈ c.declared) ∧
    (∀ (c : Category) (n : String), lookup c n = .error .notFound ↔ n ∉ c.declared) ∧
    (∀ (c c2 : Category) (n : String), n ∈ c2.declared → n ∉ c.declared →
      lookup c n = .error .notFound) ∧
    ("WAVE_ON" ∈ Category.Triggers.declared ∧ lookup .Events "WAVE_ON" = .error .notFound) ∧
    ("PLAY_INTRO" ∈ Category.Events.declared ∧
      lookup .Triggers "PLAY_INTRO" = .error .notFound) ∧
    (∀ (c : Category) (n : String) (e : LookupError), lookup c n = .error e → e = .notFound) ∧
    (∀ c : Category, c.declared =
      ((AK.namespaces.filter fun p => p.1 = c.namespaceName).flatMap fun p =>
        p.2.map Decl.name)) := by
  have herr : ∀ (c : Category) (n : String), lookup c n = .error .notFound ↔ n ∉ c.declared := by
    intro c n
    rw [lookup_eq_resolve]
    exact resolve_error_iff_not_mem c.decls n
  refine ⟨?_, herr, ?_, by decide, by decide, ?_, ?_⟩
  · intro c n
    rw [lookup_eq_resolve]
    exact resolve_ok_iff_mem c.decls n
  · intro c _ n _ hn
    exact (herr c n).2 hn
  · intro c n e _
    cases e
    rfl
  · intro c
    cases c <;> decide

theorem lookup_succeeds_iff_declared_witness :
    "SFX" ∈ Category.Busses.declared ∧ "SFX" ∉ Category.Banks.declared ∧
    lookup .Banks "SFX" = .error .notFound :=
  ⟨by decide, by decide,
    lookup_succeeds_iff_declared.2.2.1 .Banks .Busses "SFX" (by decide) (by decide)⟩

/-- Claim C4: inside each nested namespace of the header no name is declared
twice, so that a name matches at most one declaration of a category. -/
theorem names_nodup_within_category :
    (∀ ns ∈ AK.namespaces, (ns.2.map Decl.name).Nodup) ∧
    (∀ c : Category, c.declared.Nodup) ∧
    (∀ (c : Category) (n : String), (c.decls.filter fun d => d.name = n).length ≤ 1) := by
  have hnd : ∀ c : Category, c.declared.Nodup := by
    intro c
    cases c <;> decide
  refine ⟨by decide, hnd, ?_⟩
  intro c n
  have hc : c.declared.count n ≤ 1 := List.nodup_iff_count_le_one.1 (hnd c) n
  have hlen : (c.decls.filter fun d => d.name = n).length = c.declared.count n := by
    unfold Category.declared
    rw [List.count_eq_countP, List.countP_map, List.countP_eq_length_filter]
    congr 1
  omega

theorem names_nodup_within_category_witness :
    ("BANKS", AK.BANKS) ∈ AK.namespaces ∧ (AK.BANKS.map Decl.name).Nodup :=
  ⟨by decide, names_nodup_within_category.1 ("BANKS", AK.BANKS) (by decide)⟩

/-- Claim C5: the nested namespaces of the header are exactly those of the five
categories of the specification, each of them is non-empty, and the table holds
20 entries: 10 events, 1 game parameter, 2 triggers, 3 banks and 4 busses. -/
theorem categories_and_counts :
    AK.namespaces.map Prod.fst = Category.all.map Category.namespaceName ∧
    (∀ ns ∈ AK.namespaces, ns.2 ≠ []) ∧
    (∀ e ∈ AK.entries, ∃ c : Category, e.category = c.namespaceName ∧ e.decl ∈ c.decls) ∧
    (∀ c : Category, c.decls ≠ []) ∧
    AK.entries.length = 20 ∧
    Category.Events.decls.length = 10 ∧
    Category.GameParameters.decls.length = 1 ∧
    Category.Triggers.decls.length = 2 ∧
    Category.Banks.decls.length = 3 ∧
    Category.Busses.decls.length = 4 := by
  refine ⟨by decide, by decide, ?_, ?_, by decide, by decide, by decide, by decide,
    by decide, by decide⟩
  · have h : ∀ e ∈ AK.entries, ∃ c ∈ Category.all,
        e.category = c.namespaceName ∧ e.decl ∈ c.decls := by decide
    intro e he
    obtain ⟨c, _, hc⟩ := h e he
    exact ⟨c, hc⟩
  · intro c
    cases c <;> decide

theorem categories_and_counts_witness :
    ("TRIGGERS", AK.TRIGGERS) ∈ AK.namespaces ∧ AK.TRIGGERS ≠ [] :=
  ⟨by decide, categories_and_counts.2.1 ("TRIGGERS", AK.TRIGGERS) (by decide)⟩

/-- Claim C6: every literal of the table is an unsigned 32-bit integer, at least 0
and below 2^32, so that the conversion to the 32-bit identifier type leaves it
unchanged; there are 20 of them. -/
theorem literals_fit_32_bits :
    (∀ e ∈ AK.entries, 0 ≤ e.decl.literal ∧ e.decl.literal < 2 ^ 32 ∧
      e.decl.literal % 2 ^ 32 = e.decl.literal ∧ e.value = e.decl.literal) ∧
    AK.entries.length = 20 := by
  decide

theorem literals_fit_32_bits_witness :
    (⟨"EVENTS", ⟨"PLAY_LOOP", 4266239556⟩⟩ : Entry) ∈ AK.entries ∧
    (0 ≤ 4266239556 ∧ 4266239556 < 2 ^ 32 ∧ 4266239556 % 2 ^ 32 = 4266239556 ∧
      Entry.value ⟨"EVENTS", ⟨"PLAY_LOOP", 4266239556⟩⟩ = 4266239556) :=
  ⟨by decide, literals_fit_32_bits.1 ⟨"EVENTS", ⟨"PLAY_LOOP", 4266239556⟩⟩ (by decide)⟩

/-- Claim C7: two entries of the table with the same symbolic name have the same
value, whatever their categories; MUSIC is declared in both BANKS and BUSSES and
both lookups return 3991942870, so two entries of different categories share a
value. -/
theorem value_determined_by_name :
    (∀ e1 ∈ AK.entries, ∀ e2 ∈ AK.entries, e1.name = e2.name → e1.value = e2.value) ∧
    "MUSIC" ∈ Category.Banks.declared ∧
    "MUSIC" ∈ Category.Busses.declared ∧
    lookup .Banks "MUSIC" = .ok 3991942870 ∧
    lookup .Busses "MUSIC" = .ok 3991942870 ∧
    (∃ e1 ∈ AK.entries, ∃ e2 ∈ AK.entries,
      e1.category ≠ e2.category ∧ e1.value = e2.value) := by
  decide

theorem value_determined_by_name_witness :
    (⟨"BANKS", ⟨"MUSIC", 3991942870⟩⟩ : Entry) ∈ AK.entries ∧
    (⟨"BUSSES", ⟨"MUSIC", 3991942870⟩⟩ : Entry) ∈ AK.entries ∧
    Entry.value ⟨"BANKS", ⟨"MUSIC", 3991942870⟩⟩ =
      Entry.value ⟨"BUSSES", ⟨"MUSIC", 3991942870⟩⟩ :=
  ⟨by decide, by decide,
    value_determined_by_name.1 ⟨"BANKS", ⟨"MUSIC", 3991942870⟩⟩ (by decide)
      ⟨"BUSSES", ⟨"MUSIC", 3991942870⟩⟩ (by decide) rfl⟩

/-- Claim C8: across the whole table two entries with equal values have equal
names, and the only two distinct entries that share a value are MUSIC of BANKS and
MUSIC of BUSSES. -/
theorem value_collisions_only_music :
    (∀ e1 ∈ AK.entries, ∀ e2 ∈ AK.entries, e1.value = e2.value → e1.name = e2.name) ∧
    (∀ e1 ∈ AK.entries, ∀ e2 ∈ AK.entries, e1 ≠ e2 → e1.value = e2.value →
      (e1 = ⟨"BANKS", ⟨"MUSIC", 3991942870⟩⟩ ∧ e2 = ⟨"BUSSES", ⟨"MUSIC", 3991942870⟩⟩) ∨
      (e1 = ⟨"BUSSES", ⟨"MUSIC", 3991942870⟩⟩ ∧ e2 = ⟨"BANKS", ⟨"MUSIC", 3991942870⟩⟩)) ∧
    (⟨"BANKS", ⟨"MUSIC", 3991942870⟩⟩ : Entry) ∈ AK.entries ∧
    (⟨"BUSSES", ⟨"MUSIC", 3991942870⟩⟩ : Entry) ∈ AK.entries ∧
    AK.entries.Nodup := by
  decide

theorem value_collisions_only_music_witness :
    (⟨"BUSSES", ⟨"MUSIC", 3991942870⟩⟩ : Entry) ∈ AK.entries ∧
    (⟨"BANKS", ⟨"MUSIC", 3991942870⟩⟩ : Entry) ∈ AK.entries ∧
    Entry.value ⟨"BUSSES", ⟨"MUSIC", 3991942870⟩⟩ = Entry.value ⟨"BANKS", ⟨"MUSIC", 3991942870⟩⟩ ∧
    Entry.name ⟨"BUSSES", ⟨"MUSIC", 3991942870⟩⟩ = Entry.name ⟨"BANKS", ⟨"MUSIC", 3991942870⟩⟩ :=
  ⟨by decide, by decide, by decide,
    value_collisions_only_music.1 ⟨"BUSSES", ⟨"MUSIC", 3991942870⟩⟩ (by decide)
      ⟨"BANKS", ⟨"MUSIC", 3991942870⟩⟩ (by decide) (by decide)⟩

/-- Claim C9, as stated, fails: the entry MASTER_AUDIO_BUS of BUSSES holds
3803692087, while the FNV-1 hash of its lower-cased name is 2392784291, so the
values are not all the hashes of the lower-cased names. -/
theorem master_audio_bus_not_hash_of_name :
    (⟨"BUSSES", ⟨"MASTER_AUDIO_BUS", 3803692087⟩⟩ : Entry) ∈ AK.entries ∧
    Entry.value ⟨"BUSSES", ⟨"MASTER_AUDIO_BUS", 3803692087⟩⟩ = 3803692087 ∧
    hashName "MASTER_AUDIO_BUS" = 2392784291 ∧
    ¬ (∀ e ∈ AK.entries, e.value = hashName e.name) := by
  decide

/-- Claim C9, amended: every name of the table is ASCII; the value of every entry
other than MASTER_AUDIO_BUS and MASTER_SECONDARY_BUS is the 32-bit FNV-1 hash of
its lower-cased name; the value of those two is the hash of the lower-cased name
with each underscore replaced by a space; and the hash of INIT is 1355168291, the
value that the lookup of INIT in Banks returns. -/
theorem value_is_fnv1_hash :
    (∀ e ∈ AK.entries, ∀ b ∈ nameBytes e.name, b < 128) ∧
    (∀ e ∈ AK.entries, e.name ∉ spacedNames → e.value = hashName e.name) ∧
    (∀ e ∈ AK.entries, e.name ∈ spacedNames → e.value = hashSpacedName e.name) ∧
    hashName "INIT" = 1355168291 ∧
    hashName "init" = 1355168291 ∧
    lookup .Banks "INIT" = .ok (hashName "INIT") := by
  decide

theorem value_is_fnv1_hash_witness :
    (⟨"TRIGGERS", ⟨"WAVE_ON", 1252924290⟩⟩ : Entry) ∈ AK.entries ∧
    "WAVE_ON" ∉ spacedNames ∧
    Entry.value ⟨"TRIGGERS", ⟨"WAVE_ON", 1252924290⟩⟩ = hashName "WAVE_ON" :=
  ⟨by decide, by decide,
    value_is_fnv1_hash.2.1 ⟨"TRIGGERS", ⟨"WAVE_ON", 1252924290⟩⟩ (by decide) (by decide)⟩

/-- Claim C10: no entry of the table has the value 0: the lookup of every name
declared in a category succeeds with a value other than 0, no lookup at all
returns 0, and no entry holds 0. -/
theorem lookup_ne_zero :
    (∀ c : Category, ∀ n ∈ c.declared, ∃ v, lookup c n = .ok v ∧ v ≠ 0) ∧
    (∀ (c : Category) (n : String), lookup c n ≠ .ok 0) ∧
    (∀ e ∈ AK.entries, e.value ≠ 0) := by
  have hz : ∀ (c : Category) (n : String) (v : AkUniqueID), lookup c n = .ok v → v ≠ 0 := by
    intro c n v h
    rw [lookup_eq_resolve] at h
    obtain ⟨d, hd, _, hv⟩ := resolve_ok_mem c.decls n v h
    rw [← hv]
    exact decls_value_ne_zero c d hd
  refine ⟨?_, ?_, by decide⟩
  · intro c n hn
    have hex : ∃ v, lookup c n = .ok v := by
      rw [lookup_eq_resolve]
      exact (resolve_ok_iff_mem c.decls n).2 hn
    obtain ⟨v, hv⟩ := hex
    exact ⟨v, hv, hz c n v hv⟩
  · intro c n h
    exact hz c n 0 h rfl

theorem lookup_ne_zero_witness :
    "HYPE_LEVEL" ∈ Category.GameParameters.declared ∧
    ∃ v, lookup .GameParameters "HYPE_LEVEL" = .ok v ∧ v ≠ 0 :=
  ⟨by decide, lookup_ne_zero.1 .GameParameters "HYPE_LEVEL" (by decide)⟩
